import Mathlib

/-!
Verification development for the desktop assistant daemon
(`xh_2.py` and the `wp_11_analist_gemini.py` variant).

The two verified cores are:
* `DialogueContextManager` — a bounded, self-summarizing dialogue buffer
  with token-weight accounting (`add_qa`, `_check_summarization_needed`,
  `_perform_summarization`, `get_context_for_query`);
* `AudioTranscriberRealtime` — the realtime transcription session
  (`_on_message`, `start_recording`, `stop_recording`).

Machine arithmetic maps to `Nat`/`Int` (Python integers are unbounded),
wall-clock times are passed explicitly as `Int` parameters, and external
collaborators (the HTTP summarization call, the audio child process, the
websocket open handshake) are modelled by their observable outcome passed
as a parameter.
-/

namespace Daemon

/-- Embeds the `QAEntry` dataclass of `xh_2.py`: one question/answer turn
with creation timestamp and an estimated token weight. -/
structure QAEntry where
  question : String
  answer : String
  timestamp : Int
  tokens : Nat
deriving DecidableEq, Repr

/-- The words of a character list: maximal runs of non-whitespace
characters, as produced by Python `str.split()` with no arguments.
`acc` holds the reversed current run. -/
def wordsAux : List Char → List Char → List (List Char)
  | [], acc => if acc = [] then [] else [acc.reverse]
  | c :: rest, acc =>
    if c.isWhitespace then
      if acc = [] then wordsAux rest [] else acc.reverse :: wordsAux rest []
    else wordsAux rest (c :: acc)

/-- Python `len(text.split())`: the number of whitespace-separated words.
(The whitespace set is modelled by `Char.isWhitespace`.) -/
def pyWordCount (text : String) : Nat :=
  (wordsAux text.data []).length

def dropLeadingWs : List Char → List Char
  | [] => []
  | c :: rest => if c.isWhitespace then dropLeadingWs rest else c :: rest

/-- Python `str.strip()`: remove leading and trailing whitespace. -/
def pyStrip (text : String) : String :=
  String.mk (dropLeadingWs ((dropLeadingWs text.data.reverse).reverse))

/-- Python `sep.join(parts)`. -/
def pyJoin (sep : String) : List String → String
  | [] => ""
  | [x] => x
  | x :: y :: xs => x ++ sep ++ pyJoin sep (y :: xs)

/-- Embeds `DialogueContextManager._estimate_tokens`:
`len(text.split()) + len(text) // 4` (Python `len` counts code points,
as `String.length` does). -/
def estimate_tokens (text : String) : Nat :=
  pyWordCount text + text.length / 4

/-- Embeds the mutable state and configuration of `DialogueContextManager`
(`xh_2.py`, lines 35-55).  The work queue of the summarization worker is
modelled by the list of batches it currently holds plus its `maxsize`
(`queue.Queue()` is created with `maxsize = 0`, i.e. unbounded); the
injected solver is modelled by a presence flag, its reply being passed to
`perform_summarization` explicitly. -/
structure DialogueContextManager where
  max_recent_entries : Nat
  max_tokens : Nat
  summarization_threshold : Int
  min_summarization_interval : Int
  solver_present : Bool
  recent_qa : List QAEntry
  summary : String
  last_summarization_time : Int
  token_count : Int
  queue_maxsize : Nat
  summarization_queue : List (List QAEntry)
deriving DecidableEq, Repr

/-- The state built by `DialogueContextManager.__init__` with the default
configuration of `xh_2.py` (max 10 recent entries, threshold 900,
minimum summarization interval 60). -/
def initManager (solver_present : Bool) : DialogueContextManager where
  max_recent_entries := 10
  max_tokens := 1200
  summarization_threshold := 900
  min_summarization_interval := 60
  solver_present := solver_present
  recent_qa := []
  summary := ""
  last_summarization_time := 0
  token_count := 0
  queue_maxsize := 0
  summarization_queue := []

/-- Sum of the `tokens` fields of a list of turns, as a Python `int`. -/
def sumTokens (l : List QAEntry) : Int :=
  (l.map (fun e => (e.tokens : Int))).sum

/-- Embeds `queue.Queue.put_nowait` together with the `except queue.Full:
pass` handler around it: a queue with `0 < maxsize` that already holds
`maxsize` items drops the new item, otherwise the item is appended.
(A `maxsize` of zero means unbounded, as in Python.) -/
def put_nowait (maxsize : Nat) (q : List (List QAEntry)) (item : List QAEntry) :
    List (List QAEntry) :=
  if 0 < maxsize ∧ maxsize ≤ q.length then q else q ++ [item]

/-- Embeds `DialogueContextManager._check_summarization_needed`
(`xh_2.py`, lines 89-100): when the running token count exceeds the
threshold and more than the minimum interval has elapsed since the last
completed summarization, a snapshot copy of `recent_qa` is enqueued
(dropped silently if the queue is full). -/
def check_summarization_needed (s : DialogueContextManager) (now : Int) :
    DialogueContextManager :=
  if s.token_count > s.summarization_threshold ∧
      now - s.last_summarization_time > s.min_summarization_interval then
    { s with summarization_queue :=
        put_nowait s.queue_maxsize s.summarization_queue s.recent_qa }
  else s

/-- Embeds the eviction loop of `add_qa` (`xh_2.py`, lines 84-86):
`while len(recent_qa) > max_recent_entries: removed = recent_qa.pop(0);
token_count -= removed.tokens`. -/
def evict (m : Nat) : List QAEntry → Int → List QAEntry × Int
  | [], tc => ([], tc)
  | e :: rest, tc =>
    if m < rest.length + 1 then evict m rest (tc - (e.tokens : Int))
    else (e :: rest, tc)

/-- The turn constructed at the top of `add_qa` (`xh_2.py`, lines 76-81),
with the token weight estimated from the concatenated question and answer. -/
def newEntry (question answer : String) (now : Int) : QAEntry :=
  { question := question, answer := answer, timestamp := now,
    tokens := estimate_tokens (question ++ answer) }

/-- The mutation half of `DialogueContextManager.add_qa`
(`xh_2.py`, lines 75-86): append the new turn, increment the token
count, evict oldest turns while over the bound. -/
def add_qa_pre (s : DialogueContextManager) (question answer : String) (now : Int) :
    DialogueContextManager :=
  let entry := newEntry question answer now
  let p := evict s.max_recent_entries (s.recent_qa ++ [entry])
    (s.token_count + (entry.tokens : Int))
  { s with recent_qa := p.1, token_count := p.2 }

/-- Embeds `DialogueContextManager.add_qa` (`xh_2.py`, lines 75-87):
the mutation half followed by the summarization-trigger evaluation. -/
def add_qa (s : DialogueContextManager) (question answer : String) (now : Int) :
    DialogueContextManager :=
  check_summarization_needed (add_qa_pre s question answer now) now

/-- Embeds `DialogueContextManager._perform_summarization`
(`xh_2.py`, lines 102-151).  The prompt built from `qa_entries` is only
handed to the external collaborator, whose observable outcome — the
string returned by `solver.send_summarization`, or `none` when it fails
(`SystemAnalystSolver.send_summarization` catches every exception and
returns `None`) — is the `reply` parameter.  On a truthy reply the
summary is replaced by its stripped text, the completion time recorded,
and when more than 4 turns are held the buffer collapses to its last 4
with the token count recomputed from the retained turns plus an estimate
for the new summary. -/
def perform_summarization (s : DialogueContextManager) (qa_entries : List QAEntry)
    (reply : Option String) (now : Int) : DialogueContextManager :=
  if qa_entries.isEmpty ∨ s.solver_present = false then s
  else
    match reply with
    | none => s
    | some summary =>
      if summary = "" then s
      else
        let s1 := { s with summary := pyStrip summary, last_summarization_time := now }
        if 4 < s1.recent_qa.length then
          let kept := s1.recent_qa.drop (s1.recent_qa.length - 4)
          { s1 with recent_qa := kept,
                    token_count := sumTokens kept + (estimate_tokens s1.summary : Int) }
        else s1

/-- Embeds `DialogueContextManager.get_context_for_query`
(`xh_2.py`, lines 153-162): renders the stored summary (when non-empty)
followed by the last 4 turns as alternating question/answer lines.
The `new_question` argument is accepted but not consulted. -/
def get_context_for_query (s : DialogueContextManager) (new_question : String) :
    String :=
  let parts : List String :=
    (if s.summary = "" then [] else ["📋 Резюме обсуждения:\n" ++ s.summary ++ "\n"]) ++
    (if s.recent_qa = [] then [] else
      "🗣️ Последние реплики:" ::
        List.flatten ((s.recent_qa.drop (s.recent_qa.length - 4)).map
          (fun e => ["👤 PO/Я: " ++ e.question, "🤖 Ассистент: " ++ e.answer])))
  if parts = [] then "" else pyJoin "\n" parts

/-- Embeds `DialogueContextManager.get_context_for_query` of the
`wp_11_analist_gemini.py` variant (lines 148-157): same shape, but all
retained turns are rendered.  The `new_question` argument is again
ignored. -/
def get_context_for_query_v11 (s : DialogueContextManager) (new_question : String) :
    String :=
  let parts : List String :=
    (if s.summary = "" then [] else ["Резюме прошлого контекста:\n" ++ s.summary ++ "\n"]) ++
    (if s.recent_qa = [] then [] else
      "Последние Q&A:" ::
        List.flatten (s.recent_qa.map (fun e => ["Q: " ++ e.question, "A: " ++ e.answer])))
  if parts = [] then "" else pyJoin "\n" parts

/-- The first half of the locked write sequence of a successful
summarization (`xh_2.py`, lines 146-147): replace `summary` by the
stripped text and record the completion time. -/
def sum_write1 (s : DialogueContextManager) (res : String) (now : Int) :
    DialogueContextManager :=
  { s with summary := pyStrip res, last_summarization_time := now }

/-- The second half of the locked write sequence of a successful
summarization (`xh_2.py`, lines 148-151): when more than 4 turns are
held, collapse `recent_qa` to its last 4 and recompute the token count
from the retained turns plus an estimate for the (already stored)
summary. -/
def sum_write2 (s : DialogueContextManager) : DialogueContextManager :=
  if 4 < s.recent_qa.length then
    let kept := s.recent_qa.drop (s.recent_qa.length - 4)
    { s with recent_qa := kept,
             token_count := sumTokens kept + (estimate_tokens s.summary : Int) }
  else s

/-- The token-accounting invariant of the context manager: the running
count equals the summed weight of the retained turns. -/
def contextInvariant (s : DialogueContextManager) : Prop :=
  s.token_count = sumTokens s.recent_qa

instance (s : DialogueContextManager) : Decidable (contextInvariant s) := by
  unfold contextInvariant; infer_instance

/-- Embeds the observable state of `AudioTranscriberRealtime`
(`xh_2.py`, lines 323-337): the recording flag, whether the audio child
process is alive, and the transcript accumulator (`_final_chunks` and
`_partial`, here `pending`). -/
structure RecordingState where
  is_recording : Bool
  ffmpeg_running : Bool
  final_chunks : List String
  pending : String
deriving DecidableEq, Repr

/-- The state built by `AudioTranscriberRealtime.__init__`. -/
def initRecording : RecordingState where
  is_recording := false
  ffmpeg_running := false
  final_chunks := []
  pending := ""

/-- An inbound websocket message as classified by
`AudioTranscriberRealtime._on_message`: a `Results` event carrying the
transcript of the first alternative and the `is_final` flag, or anything that
the handler discards (non-JSON payloads, non-dict payloads, other event
types, events with no alternatives). -/
inductive WsMessage where
  | results (transcript : String) (is_final : Bool)
  | discarded
deriving DecidableEq, Repr

/-- Embeds `AudioTranscriberRealtime._on_message` (`xh_2.py`,
lines 352-371): the transcript text is stripped; under the transcript
lock, a final result appends its text (when non-empty) to
`final_chunks` and clears the pending segment, an interim result
overwrites the pending segment in place.  Discarded messages leave the
state untouched. -/
def on_message (s : RecordingState) (msg : WsMessage) : RecordingState :=
  match msg with
  | .discarded => s
  | .results transcript is_final =>
    let text := pyStrip transcript
    if is_final then
      { s with
        final_chunks := if text = "" then s.final_chunks else s.final_chunks ++ [text],
        pending := "" }
    else { s with pending := text }

/-- The receiver applied to a whole sequence of inbound messages. -/
def process_messages (s : RecordingState) (msgs : List WsMessage) : RecordingState :=
  msgs.foldl on_message s

/-- The transcript assembly of `stop_recording` (`xh_2.py`,
lines 510-517): finalized chunks followed by the pending segment (when
non-empty), joined with single spaces, stripped, with an empty result
turned into `None` (`return final_text or None`). -/
def collect_transcript (s : RecordingState) : Option String :=
  let parts := s.final_chunks ++ (if s.pending = "" then [] else [s.pending])
  let final_text := pyStrip (pyJoin " " parts)
  if final_text = "" then none else some final_text

/-- Embeds `AudioTranscriberRealtime.stop_recording` (`xh_2.py`,
lines 474-517): a no-op returning `None` when not recording; otherwise
the recording flag drops, the audio child process is terminated, the
aggregated transcript is assembled under the lock, and the accumulator
is reset. -/
def stop_recording (s : RecordingState) : Option String × RecordingState :=
  if s.is_recording = false then (none, s)
  else
    (collect_transcript s,
     { is_recording := false, ffmpeg_running := false, final_chunks := [], pending := "" })

/-- Embeds `AudioTranscriberRealtime.start_recording` (`xh_2.py`,
lines 382-446) at the granularity of its external outcomes: a no-op
when already recording; otherwise the accumulator is reset and the flag
raised, then — `spawn_ok` tells whether `subprocess.Popen` succeeded and
`ws_opened` whether the connection signalled open within the 3-second
wait — a spawn failure aborts with the flag lowered, and an open timeout
kills the child process and aborts with the flag lowered. -/
def start_recording (s : RecordingState) (spawn_ok ws_opened : Bool) : RecordingState :=
  if s.is_recording then s
  else
    let s1 := { s with is_recording := true, final_chunks := [], pending := "" }
    if spawn_ok then
      let s2 := { s1 with ffmpeg_running := true }
      if ws_opened then s2
      else { s2 with is_recording := false, ffmpeg_running := false }
    else { s1 with is_recording := false }

/-- The body of `get_context_for_query` (`xh_2.py`, lines 153-162) as a
function of the two reads it performs: `self.summary` is read first,
`self.recent_qa` afterwards.  Because the method takes no lock, the two
reads may observe different intermediate states of a concurrent
summarization; this function renders any such observed pair. -/
def rendered_context (summaryVal : String) (qa : List QAEntry) : String :=
  let parts : List String :=
    (if summaryVal = "" then [] else ["📋 Резюме обсуждения:\n" ++ summaryVal ++ "\n"]) ++
    (if qa = [] then [] else
      "🗣️ Последние реплики:" ::
        List.flatten ((qa.drop (qa.length - 4)).map
          (fun e => ["👤 PO/Я: " ++ e.question, "🤖 Ассистент: " ++ e.answer])))
  if parts = [] then "" else pyJoin "\n" parts

/-- The interleaving points of the locked write sequence of a successful
summarization: point 0 is before any write, point 1 is between the
summary replacement and the buffer collapse, any later point is after
the collapse.  A concurrent reader that takes no lock can observe the
state at any of these points. -/
def stAt (s : DialogueContextManager) (res : String) (now : Int) : Nat → DialogueContextManager
  | 0 => s
  | 1 => sum_write1 s res now
  | _ + 2 => sum_write2 (sum_write1 s res now)

/-- Helper state for the atomicity analysis: a reachable-shaped context
holding five unit-weight turns and a previous summary. -/
def fiveTurnState : DialogueContextManager :=
  { initManager true with
      summary := "old",
      recent_qa :=
        [⟨"q1", "a1", 1, 1⟩, ⟨"q2", "a2", 2, 1⟩, ⟨"q3", "a3", 3, 1⟩,
         ⟨"q4", "a4", 4, 1⟩, ⟨"q5", "a5", 5, 1⟩],
      token_count := 5 }

end Daemon

namespace Daemon

/-! ### Helper lemmas -/

theorem sumTokens_nil : sumTokens [] = 0 := rfl

theorem sumTokens_cons (e : QAEntry) (l : List QAEntry) :
    sumTokens (e :: l) = (e.tokens : Int) + sumTokens l := by
  simp [sumTokens]

theorem sumTokens_append (l1 l2 : List QAEntry) :
    sumTokens (l1 ++ l2) = sumTokens l1 + sumTokens l2 := by
  simp [sumTokens]

theorem sumTokens_take_add_drop (k : Nat) (l : List QAEntry) :
    sumTokens (l.take k) + sumTokens (l.drop k) = sumTokens l := by
  rw [← sumTokens_append, List.take_append_drop]

/-- Closed form of the eviction loop: it drops the longest prefix that
keeps the buffer within the bound and subtracts the weight of exactly
the dropped turns. -/
theorem evict_eq (m : Nat) (qa : List QAEntry) (tc : Int) :
    evict m qa tc =
      (qa.drop (qa.length - m), tc - sumTokens (qa.take (qa.length - m))) := by
  induction qa generalizing tc with
  | nil => simp [evict, sumTokens]
  | cons e rest ih =>
    rw [evict]
    by_cases h : m < rest.length + 1
    · rw [if_pos h, ih]
      have h1 : (e :: rest).length - m = (rest.length - m) + 1 := by
        simp only [List.length_cons]; omega
      rw [h1]
      simp only [List.drop_succ_cons, List.take_succ_cons, sumTokens_cons,
        Prod.mk.injEq, true_and]
      ring
    · rw [if_neg h]
      have h0 : (e :: rest).length - m = 0 := by
        simp only [List.length_cons]; omega
      simp only [List.length_cons] at h0
      simp [List.length_cons, h0, sumTokens]

@[simp] theorem check_recent_qa (s : DialogueContextManager) (now : Int) :
    (check_summarization_needed s now).recent_qa = s.recent_qa := by
  unfold check_summarization_needed; split <;> rfl

@[simp] theorem check_token_count (s : DialogueContextManager) (now : Int) :
    (check_summarization_needed s now).token_count = s.token_count := by
  unfold check_summarization_needed; split <;> rfl

@[simp] theorem check_summary (s : DialogueContextManager) (now : Int) :
    (check_summarization_needed s now).summary = s.summary := by
  unfold check_summarization_needed; split <;> rfl

@[simp] theorem check_last_time (s : DialogueContextManager) (now : Int) :
    (check_summarization_needed s now).last_summarization_time =
      s.last_summarization_time := by
  unfold check_summarization_needed; split <;> rfl

/-- The trigger check mutates only the queue, by a conditional
`put_nowait` of the current turn snapshot. -/
theorem check_queue (s : DialogueContextManager) (now : Int) :
    (check_summarization_needed s now).summarization_queue =
      if s.token_count > s.summarization_threshold ∧
          now - s.last_summarization_time > s.min_summarization_interval then
        put_nowait s.queue_maxsize s.summarization_queue s.recent_qa
      else s.summarization_queue := by
  unfold check_summarization_needed; split <;> rfl

/-- Closed form of the mutation half of `add_qa`. -/
theorem add_qa_pre_spec (s : DialogueContextManager) (q a : String) (now : Int) :
    (add_qa_pre s q a now).recent_qa =
        (s.recent_qa ++ [newEntry q a now]).drop
          ((s.recent_qa ++ [newEntry q a now]).length - s.max_recent_entries) ∧
      (add_qa_pre s q a now).token_count =
        s.token_count + ((newEntry q a now).tokens : Int)
          - sumTokens ((s.recent_qa ++ [newEntry q a now]).take
              ((s.recent_qa ++ [newEntry q a now]).length - s.max_recent_entries)) := by
  have h := evict_eq s.max_recent_entries (s.recent_qa ++ [newEntry q a now])
    (s.token_count + ((newEntry q a now).tokens : Int))
  constructor
  · show (evict s.max_recent_entries (s.recent_qa ++ [newEntry q a now])
      (s.token_count + ((newEntry q a now).tokens : Int))).1 = _
    rw [h]
  · show (evict s.max_recent_entries (s.recent_qa ++ [newEntry q a now])
      (s.token_count + ((newEntry q a now).tokens : Int))).2 = _
    rw [h]

/-- `add_qa` changes `recent_qa` and `token_count` exactly as its
mutation half does. -/
theorem add_qa_spec (s : DialogueContextManager) (q a : String) (now : Int) :
    (add_qa s q a now).recent_qa =
        (s.recent_qa ++ [newEntry q a now]).drop
          ((s.recent_qa ++ [newEntry q a now]).length - s.max_recent_entries) ∧
      (add_qa s q a now).token_count =
        s.token_count + ((newEntry q a now).tokens : Int)
          - sumTokens ((s.recent_qa ++ [newEntry q a now]).take
              ((s.recent_qa ++ [newEntry q a now]).length - s.max_recent_entries)) := by
  unfold add_qa
  rw [check_recent_qa, check_token_count]
  exact add_qa_pre_spec s q a now

/-- `add_qa` preserves the token-accounting invariant. -/
theorem add_qa_invariant (s : DialogueContextManager) (q a : String) (now : Int)
    (h : contextInvariant s) : contextInvariant (add_qa s q a now) := by
  obtain ⟨h1, h2⟩ := add_qa_spec s q a now
  unfold contextInvariant at h ⊢
  rw [h1, h2, h]
  have hsplit := sumTokens_take_add_drop
    ((s.recent_qa ++ [newEntry q a now]).length - s.max_recent_entries)
    (s.recent_qa ++ [newEntry q a now])
  have happ : sumTokens (s.recent_qa ++ [newEntry q a now]) =
      sumTokens s.recent_qa + sumTokens [newEntry q a now] := sumTokens_append _ _
  have hsingle : sumTokens [newEntry q a now] = ((newEntry q a now).tokens : Int) := by
    simp [sumTokens]
  linarith

@[simp] theorem sum_write1_recent_qa (s : DialogueContextManager) (res : String)
    (now : Int) : (sum_write1 s res now).recent_qa = s.recent_qa := rfl

@[simp] theorem sum_write1_summary (s : DialogueContextManager) (res : String)
    (now : Int) : (sum_write1 s res now).summary = pyStrip res := rfl

@[simp] theorem sum_write1_token_count (s : DialogueContextManager) (res : String)
    (now : Int) : (sum_write1 s res now).token_count = s.token_count := rfl

@[simp] theorem sum_write1_last_time (s : DialogueContextManager) (res : String)
    (now : Int) : (sum_write1 s res now).last_summarization_time = now := rfl

theorem sum_write2_recent (s : DialogueContextManager) :
    (sum_write2 s).recent_qa =
      if 4 < s.recent_qa.length then s.recent_qa.drop (s.recent_qa.length - 4)
      else s.recent_qa := by
  unfold sum_write2
  split <;> rfl

theorem stAt_two (s : DialogueContextManager) (res : String) (now : Int) (j : Nat) :
    stAt s res now (j + 2) = sum_write2 (sum_write1 s res now) := rfl

/-- A failed summarization attempt (collaborator returned nothing) leaves
the whole state untouched. -/
theorem perform_none (s : DialogueContextManager) (batch : List QAEntry) (now : Int) :
    perform_summarization s batch none now = s := by
  unfold perform_summarization
  split <;> rfl

/-- A successful summarization is exactly the two-step locked write
sequence. -/
theorem perform_success_eq (s : DialogueContextManager) (batch : List QAEntry)
    (res : String) (now : Int) (hb : batch ≠ []) (hs : s.solver_present = true)
    (hr : res ≠ "") :
    perform_summarization s batch (some res) now = sum_write2 (sum_write1 s res now) := by
  have hcond : ¬ (batch.isEmpty = true ∨ s.solver_present = false) := by
    rintro (h1 | h1)
    · exact hb (List.isEmpty_iff.mp h1)
    · rw [hs] at h1; exact Bool.noConfusion h1
  unfold perform_summarization
  rw [if_neg hcond]
  dsimp only
  rw [if_neg hr]
  rfl

/-- A summarization attempt that never reaches the collapse branch
(at most 4 retained turns) leaves `recent_qa` and `token_count` untouched
whatever the collaborator replied. -/
theorem perform_no_collapse (s : DialogueContextManager) (batch : List QAEntry)
    (reply : Option String) (now : Int) (hlen : s.recent_qa.length ≤ 4) :
    (perform_summarization s batch reply now).recent_qa = s.recent_qa ∧
    (perform_summarization s batch reply now).token_count = s.token_count := by
  match reply with
  | none => rw [perform_none]; exact ⟨rfl, rfl⟩
  | some r =>
    by_cases hg : batch.isEmpty = true ∨ s.solver_present = false
    · unfold perform_summarization
      rw [if_pos hg]
      exact ⟨rfl, rfl⟩
    · by_cases hr : r = ""
      · subst hr
        unfold perform_summarization
        rw [if_neg hg]
        dsimp only
        rw [if_pos rfl]
        exact ⟨rfl, rfl⟩
      · have hb : batch ≠ [] := by
          intro h
          exact hg (Or.inl (by simp [h]))
        have hs2 : s.solver_present = true := by
          rcases Bool.eq_false_or_eq_true s.solver_present with h | h
          · exact h
          · exact absurd (Or.inr h) hg
        rw [perform_success_eq s batch r now hb hs2 hr]
        unfold sum_write2
        rw [if_neg (show ¬ 4 < (sum_write1 s r now).recent_qa.length from by
          rw [sum_write1_recent_qa]; omega)]
        exact ⟨rfl, rfl⟩

/-- Dropping to the last-4 window is idempotent. -/
theorem drop_window_stable (l : List QAEntry) :
    (l.drop (l.length - 4)).drop ((l.drop (l.length - 4)).length - 4) =
      l.drop (l.length - 4) := by
  rw [List.length_drop]
  have h : l.length - (l.length - 4) - 4 = 0 := by omega
  rw [h, List.drop_zero]

/-- The last-4 window of a list is empty exactly when the list is. -/
theorem window_nil_iff (l : List QAEntry) :
    l.drop (l.length - 4) = [] ↔ l = [] := by
  rw [List.drop_eq_nil_iff]
  constructor
  · intro h
    cases l with
    | nil => rfl
    | cons e rest => simp only [List.length_cons] at h; omega
  · intro h; subst h; simp

/-- At every interleaving point of the summarization write sequence, the
rendered last-4 window of `recent_qa` is the same: the turns shown by the
renderer are exactly the turns the summarization retains. -/
theorem stAt_window (s : DialogueContextManager) (res : String) (now : Int) (j : Nat) :
    (stAt s res now j).recent_qa.drop ((stAt s res now j).recent_qa.length - 4) =
      s.recent_qa.drop (s.recent_qa.length - 4) := by
  match j with
  | 0 => rfl
  | 1 => rfl
  | j + 2 =>
    rw [stAt_two, sum_write2_recent, sum_write1_recent_qa]
    by_cases h4 : 4 < s.recent_qa.length
    · rw [if_pos h4]
      exact drop_window_stable s.recent_qa
    · rw [if_neg h4]

/-- At every interleaving point, `recent_qa` is empty exactly when it was
empty before the summarization. -/
theorem stAt_nil_iff (s : DialogueContextManager) (res : String) (now : Int) (j : Nat) :
    (stAt s res now j).recent_qa = [] ↔ s.recent_qa = [] := by
  match j with
  | 0 => exact Iff.rfl
  | 1 => exact Iff.rfl
  | j + 2 =>
    rw [stAt_two, sum_write2_recent, sum_write1_recent_qa]
    by_cases h4 : 4 < s.recent_qa.length
    · rw [if_pos h4, window_nil_iff]
    · rw [if_neg h4]

/-- Rendering depends on the turn list only through its emptiness and its
last-4 window. -/
theorem rendered_context_congr (v : String) (l1 l2 : List QAEntry)
    (hnil : l1 = [] ↔ l2 = [])
    (hwin : l1.drop (l1.length - 4) = l2.drop (l2.length - 4)) :
    rendered_context v l1 = rendered_context v l2 := by
  by_cases h1 : l1 = []
  · have h2 := hnil.mp h1
    rw [h1, h2]
  · have h2 : ¬ l2 = [] := fun h => h1 (hnil.mpr h)
    simp only [rendered_context, if_neg h1, if_neg h2, hwin]

/-- `stop_recording` on an inactive session is a no-op returning nothing. -/
theorem stop_noop (s : RecordingState) (h : s.is_recording = false) :
    stop_recording s = (none, s) := by
  unfold stop_recording
  rw [h]
  rfl

/-! ### Claim theorems -/

/-- C1 (amended): after every `add_qa` call, `token_count` equals the sum
of the weights of the turns in `recent_qa`; a summarization completion
preserves this equality when the buffer is not collapsed (at most 4
retained turns), but a collapsing completion instead sets `token_count`
to the retained weight sum plus an estimate for the new summary text, so
the stated invariant does not survive it. -/
theorem total_weight_invariant (s : DialogueContextManager) (q a : String)
    (now : Int) (batch : List QAEntry) (reply : Option String) (res : String)
    (h : contextInvariant s) :
    contextInvariant (add_qa s q a now) ∧
    (s.recent_qa.length ≤ 4 → contextInvariant (perform_summarization s batch reply now)) ∧
    (batch ≠ [] → s.solver_present = true → res ≠ "" → 4 < s.recent_qa.length →
      (perform_summarization s batch (some res) now).token_count =
        sumTokens (perform_summarization s batch (some res) now).recent_qa
          + (estimate_tokens (pyStrip res) : Int)) := by
  refine ⟨add_qa_invariant s q a now h, ?_, ?_⟩
  · intro hlen
    obtain ⟨h1, h2⟩ := perform_no_collapse s batch reply now hlen
    unfold contextInvariant at h ⊢
    rw [h1, h2, h]
  · intro hb hs hr h4
    rw [perform_success_eq s batch res now hb hs hr]
    unfold sum_write2
    rw [if_pos (show 4 < (sum_write1 s res now).recent_qa.length from h4)]
    rfl

/-- C1 witness: the invariant after a concrete `add_qa` from the initial
state, after a non-collapsing summarization attempt, and the collapsing
token recomputation at a concrete five-turn state. -/
theorem total_weight_invariant_witness :
    contextInvariant (add_qa (initManager true) "q" "a" 0) ∧
    contextInvariant (perform_summarization (initManager true) [] none 0) ∧
    (perform_summarization fiveTurnState fiveTurnState.recent_qa (some "ok") 100).token_count =
      sumTokens (perform_summarization fiveTurnState fiveTurnState.recent_qa
          (some "ok") 100).recent_qa
        + (estimate_tokens (pyStrip "ok") : Int) :=
  ⟨(total_weight_invariant (initManager true) "q" "a" 0 [] none "ok" (by decide)).1,
   (total_weight_invariant (initManager true) "q" "a" 0 [] none "ok" (by decide)).2.1
     (by decide),
   (total_weight_invariant fiveTurnState "q" "a" 0 fiveTurnState.recent_qa (some "ok")
       "ok" (by decide)).2.2 (by decide) (by decide) (by decide) (by decide)⟩

/-- C1 counterexample: a fully reachable run — five `add_qa` calls from
the initial state followed by one successful summarization — after which
`token_count` (5) differs from the summed weight of the retained turns
(4), because the estimate for the new summary text is folded in. -/
theorem total_weight_invariant_counterexample :
    ¬ contextInvariant
        (perform_summarization
          (add_qa (add_qa (add_qa (add_qa (add_qa (initManager true)
            "q" "a" 0) "q" "a" 0) "q" "a" 0) "q" "a" 0) "q" "a" 0)
          [newEntry "q" "a" 0] (some "ok") 100) := by
  decide

/-- C2: the receiver semantics — an interim result overwrites the pending
segment in place, a final result appends its (stripped, non-empty) text
to the finalized chunks and clears the pending segment, `stop` joins
finalized chunks plus a non-empty pending segment with single spaces and
strips the result — and the two concrete event sequences of the spec. -/
theorem transcript_accumulation :
    (∀ (s : RecordingState) (t : String),
        on_message s (WsMessage.results t false) = { s with pending := pyStrip t }) ∧
    (∀ (s : RecordingState) (t : String),
        on_message s (WsMessage.results t true) =
          { s with
              final_chunks :=
                if pyStrip t = "" then s.final_chunks else s.final_chunks ++ [pyStrip t],
              pending := "" }) ∧
    (∀ s : RecordingState,
        collect_transcript s =
          if pyStrip (pyJoin " "
              (s.final_chunks ++ if s.pending = "" then [] else [s.pending])) = ""
          then none
          else some (pyStrip (pyJoin " "
              (s.final_chunks ++ if s.pending = "" then [] else [s.pending])))) ∧
    collect_transcript (process_messages initRecording
        [WsMessage.results "he" false, WsMessage.results "hello" false,
         WsMessage.results "hello world" true]) = some "hello world" ∧
    collect_transcript (process_messages initRecording
        [WsMessage.results "part one" true, WsMessage.results "part tw" false]) =
      some "part one part tw" :=
  ⟨fun _ _ => rfl, fun _ _ => rfl, fun _ => rfl, by decide, by decide⟩

/-- C3: each `add_qa` leaves exactly the most recent turns that fit the
bound — the buffer equals the appended list with its oldest prefix
dropped (FIFO), its length never exceeds the configured maximum, and
`token_count` is decremented by precisely the weight of the evicted
prefix. -/
theorem bounded_fifo_eviction (s : DialogueContextManager) (q a : String) (now : Int) :
    (add_qa s q a now).recent_qa =
        (s.recent_qa ++ [newEntry q a now]).drop
          ((s.recent_qa ++ [newEntry q a now]).length - s.max_recent_entries) ∧
    (add_qa s q a now).recent_qa.length ≤ s.max_recent_entries ∧
    (add_qa s q a now).token_count =
      s.token_count + ((newEntry q a now).tokens : Int)
        - sumTokens ((s.recent_qa ++ [newEntry q a now]).take
            ((s.recent_qa ++ [newEntry q a now]).length - s.max_recent_entries)) := by
  obtain ⟨h1, h2⟩ := add_qa_spec s q a now
  refine ⟨h1, ?_, h2⟩
  rw [h1, List.length_drop]
  omega

/-- C4: `stop_recording` on a session that is not recording returns no
result and leaves the state exactly unchanged, and a second consecutive
`stop_recording` after any first one is always such a no-op. -/
theorem stop_idempotent (s : RecordingState) (h : s.is_recording = false)
    (t : RecordingState) :
    stop_recording s = (none, s) ∧
    stop_recording (stop_recording t).2 = (none, (stop_recording t).2) := by
  refine ⟨stop_noop s h, stop_noop _ ?_⟩
  unfold stop_recording
  by_cases ht : t.is_recording = false
  · rw [if_pos ht]; exact ht
  · rw [if_neg ht]

/-- C4 witness: stopping the freshly initialized (never started) session,
and a double stop after a concrete active session. -/
theorem stop_idempotent_witness :
    stop_recording initRecording = (none, initRecording) ∧
    stop_recording (stop_recording ⟨true, true, ["part one"], "part tw"⟩).2 =
      (none, (stop_recording ⟨true, true, ["part one"], "part tw"⟩).2) :=
  stop_idempotent initRecording rfl ⟨true, true, ["part one"], "part tw"⟩

/-- C5: when the summarization collaborator fails (`send_summarization`
returns nothing, catching every exception), one attempt — and any finite
sequence of attempts — leaves the context state exactly as it was. -/
theorem summarization_failure_preserves_state (s : DialogueContextManager)
    (batch : List QAEntry) (attempts : List (List QAEntry)) (now : Int) :
    perform_summarization s batch none now = s ∧
    attempts.foldl (fun st b => perform_summarization st b none now) s = s := by
  refine ⟨perform_none s batch now, ?_⟩
  induction attempts with
  | nil => rfl
  | cons b bs ih => rw [List.foldl_cons, perform_none]; exact ih

/-- C6 (amended): a successful summarization always replaces `summary`
by the stripped produced text and updates the completion time; when more
than 4 turns are held it collapses `recent_qa` to the most recent 4 and
recomputes `token_count` as the retained weight sum plus an estimate for
the new summary text, but when at most 4 turns are held `recent_qa` and
`token_count` are left unchanged (no recomputation happens). -/
theorem summarization_success_updates (s : DialogueContextManager)
    (batch : List QAEntry) (res : String) (now : Int)
    (hb : batch ≠ []) (hs : s.solver_present = true) (hr : res ≠ "") :
    (perform_summarization s batch (some res) now).summary = pyStrip res ∧
    (perform_summarization s batch (some res) now).last_summarization_time = now ∧
    (4 < s.recent_qa.length →
      (perform_summarization s batch (some res) now).recent_qa =
          s.recent_qa.drop (s.recent_qa.length - 4) ∧
      (perform_summarization s batch (some res) now).token_count =
          sumTokens (s.recent_qa.drop (s.recent_qa.length - 4))
            + (estimate_tokens (pyStrip res) : Int)) ∧
    (s.recent_qa.length ≤ 4 →
      (perform_summarization s batch (some res) now).recent_qa = s.recent_qa ∧
      (perform_summarization s batch (some res) now).token_count = s.token_count) := by
  rw [perform_success_eq s batch res now hb hs hr]
  by_cases h4 : 4 < s.recent_qa.length
  · have e : sum_write2 (sum_write1 s res now) =
        { sum_write1 s res now with
            recent_qa := s.recent_qa.drop (s.recent_qa.length - 4),
            token_count := sumTokens (s.recent_qa.drop (s.recent_qa.length - 4))
              + (estimate_tokens (pyStrip res) : Int) } := by
      unfold sum_write2
      rw [if_pos (show 4 < (sum_write1 s res now).recent_qa.length from h4)]
      rfl
    rw [e]
    exact ⟨rfl, rfl, fun _ => ⟨rfl, rfl⟩, fun hle => absurd h4 (by omega)⟩
  · have e : sum_write2 (sum_write1 s res now) = sum_write1 s res now := by
      unfold sum_write2
      rw [if_neg (show ¬ 4 < (sum_write1 s res now).recent_qa.length from h4)]
    rw [e]
    exact ⟨rfl, rfl, fun hgt => absurd hgt h4, fun _ => ⟨rfl, rfl⟩⟩

/-- C6 witness: the amended behavior at the concrete five-turn state
(collapsing path) with reply text carrying surrounding whitespace. -/
theorem summarization_success_updates_witness :
    (perform_summarization fiveTurnState fiveTurnState.recent_qa
        (some " ok ") 100).summary = pyStrip " ok " ∧
    (perform_summarization fiveTurnState fiveTurnState.recent_qa
        (some " ok ") 100).last_summarization_time = 100 ∧
    (4 < fiveTurnState.recent_qa.length →
      (perform_summarization fiveTurnState fiveTurnState.recent_qa
          (some " ok ") 100).recent_qa =
        fiveTurnState.recent_qa.drop (fiveTurnState.recent_qa.length - 4) ∧
      (perform_summarization fiveTurnState fiveTurnState.recent_qa
          (some " ok ") 100).token_count =
        sumTokens (fiveTurnState.recent_qa.drop (fiveTurnState.recent_qa.length - 4))
          + (estimate_tokens (pyStrip " ok ") : Int)) ∧
    (fiveTurnState.recent_qa.length ≤ 4 →
      (perform_summarization fiveTurnState fiveTurnState.recent_qa
          (some " ok ") 100).recent_qa = fiveTurnState.recent_qa ∧
      (perform_summarization fiveTurnState fiveTurnState.recent_qa
          (some " ok ") 100).token_count = fiveTurnState.token_count) :=
  summarization_success_updates fiveTurnState fiveTurnState.recent_qa " ok " 100
    (by decide) (by decide) (by decide)

/-- C6 counterexample: a reachable one-turn state summarized successfully
— `token_count` stays 1 and is NOT recomputed to the retained weight sum
plus the summary estimate (which would be 2), refuting the unconditional
recomputation stated by the claim. -/
theorem summarization_success_counterexample :
    ¬ ((perform_summarization (add_qa (initManager true) "q" "a" 0)
          (add_qa (initManager true) "q" "a" 0).recent_qa (some "ok") 10).token_count =
        sumTokens ((perform_summarization (add_qa (initManager true) "q" "a" 0)
          (add_qa (initManager true) "q" "a" 0).recent_qa (some "ok") 10).recent_qa)
          + (estimate_tokens (pyStrip "ok") : Int)) := by
  decide

/-- C7: after `add_qa`, the queue received the post-eviction turn
snapshot exactly when the post-add `token_count` exceeds the threshold
and more than the minimum interval has elapsed since the last completed
summarization; a full bounded queue drops the request leaving the queue
unchanged, and a non-full queue appends it. -/
theorem summarization_trigger_policy (s : DialogueContextManager) (q a : String)
    (now : Int) (item : List QAEntry) :
    ((add_qa s q a now).summarization_queue =
      if (add_qa_pre s q a now).token_count > s.summarization_threshold ∧
          now - s.last_summarization_time > s.min_summarization_interval then
        put_nowait s.queue_maxsize s.summarization_queue (add_qa_pre s q a now).recent_qa
      else s.summarization_queue) ∧
    ((add_qa s q a now).token_count = (add_qa_pre s q a now).token_count ∧
      (add_qa s q a now).recent_qa = (add_qa_pre s q a now).recent_qa) ∧
    (0 < s.queue_maxsize → s.queue_maxsize ≤ s.summarization_queue.length →
      put_nowait s.queue_maxsize s.summarization_queue item = s.summarization_queue) ∧
    (s.queue_maxsize = 0 ∨ s.summarization_queue.length < s.queue_maxsize →
      put_nowait s.queue_maxsize s.summarization_queue item =
        s.summarization_queue ++ [item]) := by
  refine ⟨?_, ⟨?_, ?_⟩, ?_, ?_⟩
  · show (check_summarization_needed (add_qa_pre s q a now) now).summarization_queue = _
    rw [check_queue]
    rfl
  · exact check_token_count _ _
  · exact check_recent_qa _ _
  · intro h1 h2
    unfold put_nowait
    rw [if_pos ⟨h1, h2⟩]
  · intro h
    unfold put_nowait
    rw [if_neg (by rintro ⟨hp, hl⟩; rcases h with h | h <;> omega)]

/-- C7 witness: a bounded full queue drops the snapshot, the unbounded
default queue appends it. -/
theorem summarization_trigger_policy_witness :
    put_nowait 1 [[newEntry "q" "a" 0]] [newEntry "x" "y" 1] = [[newEntry "q" "a" 0]] ∧
    put_nowait 0 [] [newEntry "x" "y" 1] = [[newEntry "x" "y" 1]] :=
  ⟨(summarization_trigger_policy
      ({ initManager true with
          queue_maxsize := 1, summarization_queue := [[newEntry "q" "a" 0]] }) "q" "a" 0
      [newEntry "x" "y" 1]).2.2.1 (by decide) (by decide),
   (summarization_trigger_policy (initManager true) "q" "a" 0
      [newEntry "x" "y" 1]).2.2.2 (Or.inl rfl)⟩

/-- C8: `start_recording` while already recording returns the state
untouched; a spawn failure aborts with the recording flag down; a
connection-open timeout aborts with the recording flag down and the
child process torn down.  All paths are total — no exception reaches
the caller. -/
theorem start_guards (s : RecordingState) (hs : s.is_recording = true)
    (t : RecordingState) (ht : t.is_recording = false) (b c : Bool) :
    start_recording s b c = s ∧
    (start_recording t false c).is_recording = false ∧
    (start_recording t true false).is_recording = false ∧
    (start_recording t true false).ffmpeg_running = false := by
  refine ⟨?_, ?_, ?_, ?_⟩ <;>
    · unfold start_recording
      first
        | (rw [hs]; rfl)
        | (rw [ht]; rfl)

/-- C8 witness: a concrete active session and the fresh session, with
both failure paths exercised. -/
theorem start_guards_witness :
    start_recording ⟨true, true, [], ""⟩ true true = ⟨true, true, [], ""⟩ ∧
    (start_recording initRecording false true).is_recording = false ∧
    (start_recording initRecording true false).is_recording = false ∧
    (start_recording initRecording true false).ffmpeg_running = false :=
  start_guards ⟨true, true, [], ""⟩ rfl initRecording rfl true true

/-- C9 (amended): a successful summarization is the two-write sequence
`sum_write1; sum_write2`; the renderer is a pure function of the summary
and turn-list reads it performs without taking the lock; and at EVERY
pair of interleaving points the rendered string equals the rendering of
the retained last-4 window alone — no turn evicted by the summarization
can appear next to the new summary, because the renderer shows only the
last 4 turns, exactly the suffix the summarization retains. -/
theorem render_snapshot (s : DialogueContextManager) (batch : List QAEntry)
    (res : String) (now : Int) (i j : Nat) (q1 : String)
    (hb : batch ≠ []) (hs : s.solver_present = true) (hr : res ≠ "") :
    perform_summarization s batch (some res) now = sum_write2 (sum_write1 s res now) ∧
    get_context_for_query s q1 = rendered_context s.summary s.recent_qa ∧
    rendered_context (stAt s res now i).summary ((stAt s res now j).recent_qa) =
      rendered_context (stAt s res now i).summary
        (s.recent_qa.drop (s.recent_qa.length - 4)) := by
  refine ⟨perform_success_eq s batch res now hb hs hr, rfl, ?_⟩
  apply rendered_context_congr
  · rw [stAt_nil_iff, window_nil_iff]
  · rw [stAt_window, drop_window_stable]

/-- C9 witness: the amended guarantees at the concrete five-turn state,
reading the summary before the first write and the turns after the
collapse. -/
theorem render_snapshot_witness :
    perform_summarization fiveTurnState fiveTurnState.recent_qa (some "new") 100 =
      sum_write2 (sum_write1 fiveTurnState "new" 100) ∧
    get_context_for_query fiveTurnState "hi" =
      rendered_context fiveTurnState.summary fiveTurnState.recent_qa ∧
    rendered_context (stAt fiveTurnState "new" 100 0).summary
        ((stAt fiveTurnState "new" 100 2).recent_qa) =
      rendered_context (stAt fiveTurnState "new" 100 0).summary
        (fiveTurnState.recent_qa.drop (fiveTurnState.recent_qa.length - 4)) :=
  render_snapshot fiveTurnState fiveTurnState.recent_qa "new" 100 0 2 "hi"
    (by decide) (by decide) (by decide)

/-- C9 counterexample: the unlocked reader that reads the summary before
the first write and the turn list after the collapse observes a
(summary, turns) pair that is not the atomic snapshot of ANY state of
the write sequence — refuting the claim that the pair is read under the
shared lock as one atomic snapshot. -/
theorem render_snapshot_counterexample :
    ((stAt fiveTurnState "new" 100 0).summary,
        (stAt fiveTurnState "new" 100 2).recent_qa) ≠
      ((stAt fiveTurnState "new" 100 0).summary,
        (stAt fiveTurnState "new" 100 0).recent_qa) ∧
    ((stAt fiveTurnState "new" 100 0).summary,
        (stAt fiveTurnState "new" 100 2).recent_qa) ≠
      ((stAt fiveTurnState "new" 100 1).summary,
        (stAt fiveTurnState "new" 100 1).recent_qa) ∧
    ((stAt fiveTurnState "new" 100 0).summary,
        (stAt fiveTurnState "new" 100 2).recent_qa) ≠
      ((stAt fiveTurnState "new" 100 2).summary,
        (stAt fiveTurnState "new" 100 2).recent_qa) := by
  decide

/-- C10: the rendered context is independent of the query argument, in
both the `xh_2.py` renderer and the `wp_11_analist_gemini.py` variant:
any two queries against the same state yield the same string. -/
theorem render_ignores_query (s : DialogueContextManager) (q1 q2 : String) :
    get_context_for_query s q1 = get_context_for_query s q2 ∧
    get_context_for_query_v11 s q1 = get_context_for_query_v11 s q2 :=
  ⟨rfl, rfl⟩

end Daemon
